import Mathlib

/-!
Verification of the ORBIT financial engine
(`src/services/financial_engine.py`) against its specification.

Embedding conventions:
* Python `Decimal` values are embedded as exact rationals (`ℚ`); the spec
  mandates decimal precision, and all quantities appearing in the claims fit
  well inside the default 28-digit `Decimal` context.
* `Decimal.quantize(Decimal("0.01"), ROUND_HALF_UP)` is `round2` below
  (round to cents, ties away from zero).
* Python `int(x)` (truncation toward zero) is `pyInt` below.
* The closed-form month count
  `meses = ceil(-log(1 - divida*taxa/pagamento) / log(1 + taxa))`
  is embedded exactly (the `float`/`math.log` round trip is taken at its
  mathematical value): with `0 < taxa` and `divida*taxa < pagamento` this
  ceiling is the least `k` with `(1+taxa)^k * (pagamento - divida*taxa) ≥
  pagamento`, which `payoffMonths` computes by bounded search.
* `datetime` values only enter the claims through the 30-day month
  convention of `dias_adicionais = meses_adicionais * 30`; absolute dates
  and the Portuguese coach-message strings are presentation-only and are
  omitted from the embedded records.
* Python exceptions (`raise ValueError`) are embedded as `Except EngineError`
  with the error taxonomy of the spec; the payload of `infeasiblePayment`
  is the computed minimum payment `divida * taxa` that the source interpolates
  into its message.
-/

namespace Orbit

/-- Quantization to two decimal places with `ROUND_HALF_UP`
(round to nearest cent, ties away from zero), as used by
`Decimal.quantize(Decimal("0.01"), ROUND_HALF_UP)` throughout the source. -/
def round2 (x : ℚ) : ℚ :=
  if 0 ≤ x then (⌊100 * x + 1 / 2⌋ : ℚ) / 100 else -((⌊100 * (-x) + 1 / 2⌋ : ℚ) / 100)

/-- Python `int()` applied to a numeric value: truncation toward zero. -/
def pyInt (x : ℚ) : ℤ :=
  if 0 ≤ x then ⌊x⌋ else -⌊-x⌋

lemma round2_zero : round2 0 = 0 := by
  rw [round2, if_pos le_rfl]
  norm_num

lemma round2_mono_nonneg {x y : ℚ} (hx : 0 ≤ x) (hxy : x ≤ y) : round2 x ≤ round2 y := by
  have hy : 0 ≤ y := le_trans hx hxy
  rw [round2, round2, if_pos hx, if_pos hy]
  have h : ⌊100 * x + 1 / 2⌋ ≤ ⌊100 * y + 1 / 2⌋ := by
    apply Int.floor_le_floor
    linarith
  have h' : ((⌊100 * x + 1 / 2⌋ : ℤ) : ℚ) ≤ ((⌊100 * y + 1 / 2⌋ : ℤ) : ℚ) := by
    exact_mod_cast h
  linarith

lemma round2_err {x : ℚ} (hx : 0 ≤ x) : |round2 x - x| ≤ 1 / 200 := by
  rw [round2, if_pos hx]
  have h1 : ((⌊100 * x + 1 / 2⌋ : ℤ) : ℚ) ≤ 100 * x + 1 / 2 := Int.floor_le _
  have h2 : 100 * x + 1 / 2 < (⌊100 * x + 1 / 2⌋ : ℤ) + 1 := Int.lt_floor_add_one _
  rw [abs_le]
  constructor <;> [linarith; linarith]

lemma round2_nonneg {x : ℚ} (hx : 0 ≤ x) : 0 ≤ round2 x := by
  have := round2_zero
  calc (0 : ℚ) = round2 0 := round2_zero.symm
    _ ≤ round2 x := round2_mono_nonneg le_rfl hx

/-- Error taxonomy of the engine (spec §7); the source raises `ValueError`
with a formatted message, whose numeric content is carried as payload here. -/
inductive EngineError where
  | invalidDebt : EngineError
  | invalidPayment : EngineError
  | infeasiblePayment (juros_minimo : ℚ) : EngineError
deriving DecidableEq

/-- The `DebtProjection` dataclass (`payoff_date`, a `datetime`, is the
start date plus `30 * months_to_payoff` days and is omitted: no claim
refers to absolute dates). -/
structure DebtProjection where
  debt_total : ℚ
  monthly_payment : ℚ
  interest_rate : ℚ
  months_to_payoff : ℕ
  total_interest_paid : ℚ
  total_amount_paid : ℚ
deriving DecidableEq

/-- Bounded linear search: least `n ≥ start` with `P n`, scanning at most
`fuel` candidates (returns the endpoint if none is found). -/
def findFirst (P : ℕ → Prop) [DecidablePred P] : ℕ → ℕ → ℕ
  | start, 0 => start
  | start, fuel + 1 => if P start then start else findFirst P (start + 1) fuel

lemma findFirst_not (P : ℕ → Prop) [DecidablePred P] :
    ∀ fuel start m, start ≤ m → m < findFirst P start fuel → ¬ P m := by
  intro fuel
  induction fuel with
  | zero =>
    intro start m h1 h2
    simp only [findFirst] at h2
    omega
  | succ f ih =>
    intro start m h1 h2
    simp only [findFirst] at h2
    by_cases hs : P start
    · rw [if_pos hs] at h2; omega
    · rw [if_neg hs] at h2
      rcases Nat.eq_or_lt_of_le h1 with h | h
      · exact h ▸ hs
      · exact ih (start + 1) m h h2

lemma findFirst_holds (P : ℕ → Prop) [DecidablePred P] :
    ∀ fuel start n, start ≤ n → n < start + fuel → P n →
      P (findFirst P start fuel) := by
  intro fuel
  induction fuel with
  | zero => intro start n h1 h2 _; omega
  | succ f ih =>
    intro start n h1 h2 hP
    simp only [findFirst]
    by_cases hs : P start
    · rw [if_pos hs]; exact hs
    · rw [if_neg hs]
      rcases Nat.eq_or_lt_of_le h1 with h | h
      · exact absurd (h ▸ hP) hs
      · exact ih (start + 1) n h (by omega) hP

/-- Payoff predicate: after `k` months the closed-form (uncapped) balance is
no longer positive.  Algebraically `(1+i)^k * (p - d*i) ≥ p` is equivalent to
`k ≥ -log(1 - d*i/p) / log(1 + i)`, the exponent appearing in the source. -/
def payoffPred (d p i : ℚ) (k : ℕ) : Prop :=
  p ≤ (1 + i) ^ k * (p - d * i)

instance (d p i : ℚ) : DecidablePred (payoffPred d p i) :=
  fun k => inferInstanceAs (Decidable (p ≤ (1 + i) ^ k * (p - d * i)))

/-- Search budget: Bernoulli's inequality guarantees the payoff predicate
holds within `⌈d / (p - d*i)⌉` months. -/
def payoffFuel (d p i : ℚ) : ℕ :=
  ⌈d / (p - d * i)⌉₊ + 1

/-- The month count `meses = ceil(-log(1 - d*i/p) / log(1+i))` of the source,
embedded exactly as the least `k` satisfying `payoffPred`. -/
def payoffMonths (d p i : ℚ) : ℕ :=
  findFirst (payoffPred d p i) 0 (payoffFuel d p i)

lemma one_le_pow_rat {a : ℚ} (ha : 1 ≤ a) (n : ℕ) : 1 ≤ a ^ n := by
  induction n with
  | zero => simp
  | succ k ih => rw [pow_succ]; nlinarith

lemma payoffPred_at_bound {d p i : ℚ} (hi : 0 < i) (hf : d * i < p) :
    payoffPred d p i ⌈d / (p - d * i)⌉₊ := by
  set K := ⌈d / (p - d * i)⌉₊ with hK
  have hc : 0 < p - d * i := by linarith
  have hdK : d / (p - d * i) ≤ (K : ℚ) := Nat.le_ceil _
  have hdc : d ≤ (K : ℚ) * (p - d * i) := by
    rw [div_le_iff₀ hc] at hdK
    linarith
  have hbern : (1 : ℚ) + (K : ℚ) * i ≤ (1 + i) ^ K := one_add_mul_le_pow (by linarith) K
  have h1 : ((1 : ℚ) + (K : ℚ) * i) * (p - d * i) ≤ (1 + i) ^ K * (p - d * i) :=
    mul_le_mul_of_nonneg_right hbern (le_of_lt hc)
  have h2 : p ≤ ((1 : ℚ) + (K : ℚ) * i) * (p - d * i) := by
    have : d * i ≤ (K : ℚ) * (p - d * i) * i := mul_le_mul_of_nonneg_right hdc (le_of_lt hi)
    nlinarith
  exact le_trans h2 h1

lemma payoffMonths_pred {d p i : ℚ} (hi : 0 < i) (hf : d * i < p) :
    payoffPred d p i (payoffMonths d p i) := by
  apply findFirst_holds (payoffPred d p i) (payoffFuel d p i) 0 ⌈d / (p - d * i)⌉₊
    (Nat.zero_le _)
  · simp [payoffFuel]
  · exact payoffPred_at_bound hi hf

lemma payoffMonths_not {d p i : ℚ} {m : ℕ} (hm : m < payoffMonths d p i) :
    ¬ payoffPred d p i m :=
  findFirst_not (payoffPred d p i) (payoffFuel d p i) 0 m (Nat.zero_le _) hm

lemma payoffMonths_le {d p i : ℚ} {k : ℕ} (hk : payoffPred d p i k) :
    payoffMonths d p i ≤ k := by
  by_contra h
  exact payoffMonths_not (by omega) hk

lemma payoffPred_mono_debt {d d' p i : ℚ} (hdd : d ≤ d') (hi : 0 ≤ i) {k : ℕ}
    (h : payoffPred d' p i k) : payoffPred d p i k := by
  unfold payoffPred at h ⊢
  have hpow : (0 : ℚ) ≤ (1 + i) ^ k := pow_nonneg (by linarith) k
  have : (1 + i) ^ k * (p - d' * i) ≤ (1 + i) ^ k * (p - d * i) := by
    apply mul_le_mul_of_nonneg_left _ hpow
    nlinarith
  linarith

lemma payoffPred_mono_payment {d p1 p2 i : ℚ} (hp : p1 ≤ p2) (hi : 0 ≤ i) {k : ℕ}
    (h : payoffPred d p1 i k) : payoffPred d p2 i k := by
  unfold payoffPred at h ⊢
  have hpow : (1 : ℚ) ≤ (1 + i) ^ k := one_le_pow_rat (by linarith) k
  nlinarith

/-- State of the month-by-month repayment simulation in
`calcular_data_quitacao` (`saldo`, `juros_total`, `total_pago`). -/
structure SimState where
  saldo : ℚ
  juros_total : ℚ
  total_pago : ℚ

/-- One iteration of the repayment loop:
`juros_mes = saldo * taxa`; `amortizacao = min(pagamento - juros_mes, saldo)`;
`saldo = max(0, saldo - amortizacao)`; interest accumulates, and the month's
payment is the nominal `pagamento` while debt remains, else the capped
`amortizacao + juros_mes`. -/
def simStep (p i : ℚ) (st : SimState) : SimState :=
  let juros_mes := st.saldo * i
  let amortizacao := min (p - juros_mes) st.saldo
  let saldo := max 0 (st.saldo - amortizacao)
  { saldo := saldo
    juros_total := st.juros_total + juros_mes
    total_pago := st.total_pago + (if 0 < saldo then p else amortizacao + juros_mes) }

/-- The `for _ in range(meses)` loop of `calcular_data_quitacao`. -/
def simRun (p i : ℚ) (st : SimState) : ℕ → SimState
  | 0 => st
  | n + 1 => simRun p i (simStep p i st) n

lemma simRun_succ (p i : ℚ) : ∀ (k : ℕ) (st : SimState),
    simRun p i st (k + 1) = simStep p i (simRun p i st k) := by
  intro k
  induction k with
  | zero => intro st; rfl
  | succ n ih =>
    intro st
    show simRun p i (simStep p i st) (n + 1) = _
    rw [ih (simStep p i st)]
    rfl

lemma simStep_saldo (p i : ℚ) (st : SimState) :
    (simStep p i st).saldo = max 0 (st.saldo * (1 + i) - p) := by
  show max 0 (st.saldo - min (p - st.saldo * i) st.saldo) = _
  rcases le_total (p - st.saldo * i) st.saldo with h | h
  · rw [min_eq_left h]
    congr 1
    ring
  · rw [min_eq_right h]
    have h2 : st.saldo * (1 + i) - p ≤ 0 := by nlinarith
    rw [sub_self, max_eq_left le_rfl, max_eq_left h2]

lemma simStep_juros (p i : ℚ) (st : SimState) :
    (simStep p i st).juros_total = st.juros_total + st.saldo * i := rfl

lemma simStep_invariant (p i : ℚ) (st : SimState) :
    (simStep p i st).total_pago - (simStep p i st).juros_total + (simStep p i st).saldo =
      st.total_pago - st.juros_total + st.saldo := by
  show st.total_pago + _ - (st.juros_total + st.saldo * i) + max 0 (st.saldo - _) = _
  set b := st.saldo with hb
  set amort := min (p - b * i) b with hamort
  have hab : amort ≤ b := min_le_right _ _
  have hmax : max 0 (b - amort) = b - amort := max_eq_right (by linarith)
  rw [hmax]
  by_cases hpos : 0 < b - amort
  · rw [if_pos hpos]
    have hlt : amort < b := by linarith
    have heq : amort = p - b * i := by
      rcases min_cases (p - b * i) b with ⟨he, _⟩ | ⟨he, hle⟩
      · rw [hamort, he]
      · exfalso; rw [hamort, he] at hlt; exact lt_irrefl b hlt
    rw [heq]
    ring
  · rw [if_neg hpos]
    ring

lemma simRun_invariant (p i : ℚ) : ∀ (k : ℕ) (st : SimState),
    (simRun p i st k).total_pago - (simRun p i st k).juros_total + (simRun p i st k).saldo =
      st.total_pago - st.juros_total + st.saldo := by
  intro k
  induction k with
  | zero => intro st; rfl
  | succ n ih =>
    intro st
    rw [simRun_succ, simStep_invariant, ih]

/-- Balance after `k` months of the repayment loop, in closed recursive form
(the loop's `max`/`min` update collapses to `max 0 (saldo*(1+i) - p)`). -/
def cappedBalance (p i b : ℚ) : ℕ → ℚ
  | 0 => b
  | k + 1 => max 0 (cappedBalance p i b k * (1 + i) - p)

lemma simRun_saldo (p i : ℚ) : ∀ (k : ℕ) (st : SimState),
    (simRun p i st k).saldo = cappedBalance p i st.saldo k := by
  intro k
  induction k with
  | zero => intro st; rfl
  | succ n ih =>
    intro st
    rw [simRun_succ, simStep_saldo, ih]
    rfl

/-- Uncapped balance recursion `b ↦ b*(1+i) - p`, whose sign change defines
the closed-form month count. -/
def uncapped (p i b : ℚ) : ℕ → ℚ
  | 0 => b
  | k + 1 => uncapped p i b k * (1 + i) - p

lemma uncapped_mul (p i d : ℚ) : ∀ k : ℕ,
    i * uncapped p i d k = (1 + i) ^ k * (d * i - p) + p := by
  intro k
  induction k with
  | zero => simp [uncapped]; ring
  | succ n ih =>
    show i * (uncapped p i d n * (1 + i) - p) = _
    have : i * (uncapped p i d n * (1 + i) - p) = (i * uncapped p i d n) * (1 + i) - i * p := by
      ring
    rw [this, ih]
    ring

lemma uncapped_nonpos_iff {p i d : ℚ} (hi : 0 < i) (k : ℕ) :
    uncapped p i d k ≤ 0 ↔ payoffPred d p i k := by
  have hmul := uncapped_mul p i d k
  unfold payoffPred
  constructor
  · intro hu
    have : i * uncapped p i d k ≤ 0 := mul_nonpos_of_nonneg_of_nonpos (le_of_lt hi) hu
    nlinarith
  · intro hP
    have h1 : i * uncapped p i d k ≤ 0 := by nlinarith
    nlinarith

lemma capped_eq_max {p i d : ℚ} (hp : 0 ≤ p) (hi : 0 ≤ i) (hd : 0 ≤ d) : ∀ k : ℕ,
    cappedBalance p i d k = max 0 (uncapped p i d k) := by
  intro k
  induction k with
  | zero => exact (max_eq_right hd).symm
  | succ n ih =>
    show max 0 (cappedBalance p i d n * (1 + i) - p) = max 0 (uncapped p i d n * (1 + i) - p)
    rw [ih]
    rcases le_or_lt 0 (uncapped p i d n) with h | h
    · rw [max_eq_right h]
    · rw [max_eq_left (le_of_lt h)]
      have h1 : (0 : ℚ) * (1 + i) - p ≤ 0 := by nlinarith
      have h2 : uncapped p i d n * (1 + i) - p ≤ 0 := by nlinarith
      rw [max_eq_left h1, max_eq_left h2]

lemma capped_nonneg {p i d : ℚ} (hd : 0 ≤ d) : ∀ k : ℕ, 0 ≤ cappedBalance p i d k
  | 0 => hd
  | _ + 1 => le_max_left _ _

lemma capped_mono_debt {p i d d' : ℚ} (hdd : d ≤ d') (hi : 0 ≤ i) : ∀ k : ℕ,
    cappedBalance p i d k ≤ cappedBalance p i d' k := by
  intro k
  induction k with
  | zero => exact hdd
  | succ n ih =>
    show max 0 _ ≤ max 0 _
    apply max_le_max le_rfl
    have := mul_le_mul_of_nonneg_right ih (show (0:ℚ) ≤ 1 + i by linarith)
    linarith

/-- Interest accumulated by the repayment loop over `k` months. -/
def accInterest (p i d : ℚ) : ℕ → ℚ
  | 0 => 0
  | k + 1 => accInterest p i d k + cappedBalance p i d k * i

lemma simRun_juros (p i : ℚ) : ∀ (k : ℕ) (st : SimState),
    (simRun p i st k).juros_total = st.juros_total + accInterest p i st.saldo k := by
  intro k
  induction k with
  | zero => intro st; show st.juros_total = st.juros_total + 0; rw [add_zero]
  | succ n ih =>
    intro st
    rw [simRun_succ, simStep_juros, ih, simRun_saldo]
    show _ = st.juros_total + (accInterest p i st.saldo n + cappedBalance p i st.saldo n * i)
    ring

lemma accInterest_nonneg {p i d : ℚ} (hd : 0 ≤ d) (hi : 0 ≤ i) : ∀ k : ℕ,
    0 ≤ accInterest p i d k := by
  intro k
  induction k with
  | zero => exact le_rfl
  | succ n ih => exact add_nonneg ih (mul_nonneg (capped_nonneg hd n) hi)

lemma accInterest_mono_k {p i d : ℚ} (hd : 0 ≤ d) (hi : 0 ≤ i) {k k' : ℕ} (hkk : k ≤ k') :
    accInterest p i d k ≤ accInterest p i d k' := by
  induction k' with
  | zero =>
    have : k = 0 := Nat.le_zero.mp hkk
    rw [this]
  | succ n ih =>
    rcases Nat.lt_or_ge k (n + 1) with h | h
    · have h1 : accInterest p i d k ≤ accInterest p i d n := ih (Nat.lt_succ_iff.mp h)
      have h2 : 0 ≤ cappedBalance p i d n * i := mul_nonneg (capped_nonneg hd n) hi
      show accInterest p i d k ≤ accInterest p i d n + cappedBalance p i d n * i
      linarith
    · have : k = n + 1 := le_antisymm hkk h
      rw [this]

lemma accInterest_mono_debt {p i d d' : ℚ} (hdd : d ≤ d') (hi : 0 ≤ i) :
    ∀ k : ℕ, accInterest p i d k ≤ accInterest p i d' k := by
  intro k
  induction k with
  | zero => exact le_rfl
  | succ n ih =>
    show accInterest p i d n + _ ≤ accInterest p i d' n + _
    have h1 : cappedBalance p i d n * i ≤ cappedBalance p i d' n * i :=
      mul_le_mul_of_nonneg_right (capped_mono_debt hdd hi n) hi
    linarith

lemma saldo_final_zero {d p i : ℚ} (h0 : 0 < d) (hi : 0 < i) (hf : d * i < p) :
    cappedBalance p i d (payoffMonths d p i) = 0 := by
  have hp : 0 < p := lt_trans (mul_pos h0 hi) hf
  rw [capped_eq_max (le_of_lt hp) (le_of_lt hi) (le_of_lt h0)]
  exact max_eq_left ((uncapped_nonpos_iff hi _).mpr (payoffMonths_pred hi hf))

/-- `FinancialEngine.calcular_data_quitacao(divida_total, pagamento_mensal,
taxa_juros_mensal)`: validation, the zero-rate shortcut
`meses = ceil(divida / pagamento)`, the infeasibility check
`pagamento <= divida * taxa`, the closed-form month count and the
month-by-month re-simulation, with cent quantization on output. -/
def calcular_data_quitacao (divida pagamento taxa : ℚ) : Except EngineError DebtProjection :=
  if divida ≤ 0 then .error .invalidDebt
  else if pagamento ≤ 0 then .error .invalidPayment
  else if taxa ≤ 0 then
    .ok { debt_total := divida, monthly_payment := pagamento, interest_rate := taxa,
          months_to_payoff := ⌈divida / pagamento⌉₊,
          total_interest_paid := 0, total_amount_paid := divida }
  else if pagamento ≤ divida * taxa then .error (.infeasiblePayment (divida * taxa))
  else
    let meses := payoffMonths divida pagamento taxa
    let fin := simRun pagamento taxa ⟨divida, 0, 0⟩ meses
    .ok { debt_total := round2 divida, monthly_payment := round2 pagamento,
          interest_rate := taxa, months_to_payoff := meses,
          total_interest_paid := round2 fin.juros_total,
          total_amount_paid := round2 fin.total_pago }

lemma calcular_zero_eq {d p i : ℚ} (h0 : 0 < d) (hp : 0 < p) (hi : i ≤ 0) :
    calcular_data_quitacao d p i = Except.ok
      { debt_total := d, monthly_payment := p, interest_rate := i,
        months_to_payoff := ⌈d / p⌉₊, total_interest_paid := 0, total_amount_paid := d } := by
  rw [calcular_data_quitacao, if_neg (not_le.mpr h0), if_neg (not_le.mpr hp), if_pos hi]

lemma calcular_pos_eq {d p i : ℚ} (h0 : 0 < d) (hi : 0 < i) (hf : d * i < p) :
    calcular_data_quitacao d p i = Except.ok
      { debt_total := round2 d, monthly_payment := round2 p, interest_rate := i,
        months_to_payoff := payoffMonths d p i,
        total_interest_paid := round2 (accInterest p i d (payoffMonths d p i)),
        total_amount_paid := round2 (d + accInterest p i d (payoffMonths d p i)) } := by
  have hp : 0 < p := lt_trans (mul_pos h0 hi) hf
  rw [calcular_data_quitacao, if_neg (not_le.mpr h0), if_neg (not_le.mpr hp),
    if_neg (not_le.mpr hi), if_neg (not_le.mpr hf)]
  have hsaldo : (simRun p i ⟨d, 0, 0⟩ (payoffMonths d p i)).saldo = 0 := by
    rw [simRun_saldo]
    exact saldo_final_zero h0 hi hf
  have hjuros : (simRun p i ⟨d, 0, 0⟩ (payoffMonths d p i)).juros_total =
      accInterest p i d (payoffMonths d p i) := by
    rw [simRun_juros]
    show 0 + _ = _
    rw [zero_add]
  have hinv := simRun_invariant p i (payoffMonths d p i) ⟨d, 0, 0⟩
  have hpago : (simRun p i ⟨d, 0, 0⟩ (payoffMonths d p i)).total_pago =
      d + accInterest p i d (payoffMonths d p i) := by
    rw [hsaldo, hjuros] at hinv
    show (simRun p i ⟨d, 0, 0⟩ (payoffMonths d p i)).total_pago = _
    have : (0 : ℚ) - 0 + d = d := by ring
    rw [this] at hinv
    linarith
  simp only [hjuros, hpago]

lemma calcular_isOk {d p i : ℚ} (h0 : 0 < d) (hp : 0 < p) (hf : 0 < i → d * i < p) :
    ∃ pr, calcular_data_quitacao d p i = Except.ok pr := by
  rcases le_or_lt i 0 with hi | hi
  · exact ⟨_, calcular_zero_eq h0 hp hi⟩
  · exact ⟨_, calcular_pos_eq h0 hi (hf hi)⟩

/-- Result dictionary of `calcular_impacto_gasto` (payoff-date strings and
the coach message are presentation-only and omitted). -/
structure ImpactReport where
  gasto_original : ℚ
  custo_real : ℚ
  juros_adicionais : ℚ
  dias_adicionais : ℤ
  meses_adicionais : ℤ
deriving DecidableEq

/-- `FinancialEngine.calcular_impacto_gasto`: two solver runs (baseline debt,
debt plus the new expense) and their difference; a `ValueError` raised by
either run propagates to the caller. -/
def calcular_impacto_gasto (divida_atual pagamento_mensal taxa_mensal novo_gasto : ℚ) :
    Except EngineError ImpactReport :=
  match calcular_data_quitacao divida_atual pagamento_mensal taxa_mensal with
  | .error e => .error e
  | .ok proj_atual =>
    match calcular_data_quitacao (divida_atual + novo_gasto) pagamento_mensal taxa_mensal with
    | .error e => .error e
    | .ok proj_nova =>
      let meses_adicionais : ℤ :=
        (proj_nova.months_to_payoff : ℤ) - (proj_atual.months_to_payoff : ℤ)
      let juros_adicionais := proj_nova.total_interest_paid - proj_atual.total_interest_paid
      .ok { gasto_original := novo_gasto
            custo_real := round2 (novo_gasto + juros_adicionais)
            juros_adicionais := round2 juros_adicionais
            dias_adicionais := meses_adicionais * 30
            meses_adicionais := meses_adicionais }

/-- The scenario dictionary `{"tipo": ..., "valor": ...}` passed to
`simular_cenario` (`valor` carries the `cenario.get("valor", 0)` value). -/
structure Cenario where
  tipo : String
  valor : ℚ
deriving DecidableEq

/-- The `if/elif/elif` transformation of `(divida, pagamento)` by scenario
tag inside `simular_cenario`; an unrecognized tag leaves both unchanged. -/
def aplicar_cenario (c : Cenario) (divida pagamento : ℚ) : ℚ × ℚ :=
  if c.tipo = "vender_algo" then (max 0 (divida - c.valor), pagamento)
  else if c.tipo = "aumentar_pagamento" then (divida, pagamento + c.valor)
  else if c.tipo = "renda_extra" then (max 0 (divida - c.valor), pagamento)
  else (divida, pagamento)

/-- Result dictionary of `simular_cenario` (date strings and the motivational
message omitted); `simulado` is `none` exactly when the perturbation
extinguished the debt and no second solver run happened, in which case the
source reports months `0` and interest `0` in the `simulado` sub-dictionary. -/
structure ScenarioResult where
  cenario_tipo : String
  cenario_valor : ℚ
  nova_divida : ℚ
  atual_meses : ℕ
  atual_juros : ℚ
  simulado : Option (ℕ × ℚ)
  economia_meses : ℤ
  economia_juros : ℚ
deriving DecidableEq

/-- `FinancialEngine.simular_cenario`: baseline solver run, scenario
transformation, and (when debt remains) a second solver run; exceptions from
either run propagate. -/
def simular_cenario (divida_atual pagamento_atual taxa_mensal : ℚ) (cenario : Cenario) :
    Except EngineError ScenarioResult :=
  match calcular_data_quitacao divida_atual pagamento_atual taxa_mensal with
  | .error e => .error e
  | .ok proj_atual =>
    let np := aplicar_cenario cenario divida_atual pagamento_atual
    if 0 < np.1 then
      match calcular_data_quitacao np.1 np.2 taxa_mensal with
      | .error e => .error e
      | .ok proj_nova =>
        .ok { cenario_tipo := cenario.tipo, cenario_valor := cenario.valor,
              nova_divida := np.1,
              atual_meses := proj_atual.months_to_payoff,
              atual_juros := proj_atual.total_interest_paid,
              simulado := some (proj_nova.months_to_payoff, proj_nova.total_interest_paid),
              economia_meses :=
                (proj_atual.months_to_payoff : ℤ) - (proj_nova.months_to_payoff : ℤ),
              economia_juros :=
                round2 (proj_atual.total_interest_paid - proj_nova.total_interest_paid) }
    else
      .ok { cenario_tipo := cenario.tipo, cenario_valor := cenario.valor,
            nova_divida := np.1,
            atual_meses := proj_atual.months_to_payoff,
            atual_juros := proj_atual.total_interest_paid,
            simulado := none,
            economia_meses := (proj_atual.months_to_payoff : ℤ),
            economia_juros := round2 proj_atual.total_interest_paid }

/-- One entry of the `evolucao` list built by `calcular_juros_compostos`. -/
structure GrowthEntry where
  mes : ℤ
  montante : ℚ
  juros_mes : ℚ
  juros_acumulados : ℚ
deriving DecidableEq

/-- Return dictionary of `calcular_juros_compostos`. -/
structure GrowthResult where
  principal : ℚ
  taxa_mensal : ℚ
  meses : ℤ
  aporte_mensal : ℚ
  montante_final : ℚ
  juros_totais : ℚ
  evolucao : List GrowthEntry
deriving DecidableEq

/-- The `for mes in range(1, meses + 1)` loop of `calcular_juros_compostos`:
returns final amount, accumulated interest and the trajectory entries. -/
def jurosCompostosAux (taxa aporte : ℚ) (mes : ℤ) (montante juros_acumulados : ℚ) :
    ℕ → ℚ × ℚ × List GrowthEntry
  | 0 => (montante, juros_acumulados, [])
  | n + 1 =>
    let juros_mes := montante * taxa
    let novo_montante := montante + juros_mes + aporte
    let novos_juros := juros_acumulados + juros_mes
    let rest := jurosCompostosAux taxa aporte (mes + 1) novo_montante novos_juros n
    (rest.1, rest.2.1,
      { mes := mes, montante := round2 novo_montante, juros_mes := round2 juros_mes,
        juros_acumulados := round2 novos_juros } :: rest.2.2)

/-- `FinancialEngine.calcular_juros_compostos(principal, taxa_mensal, meses,
aporte_mensal)`: Python's `range(1, meses + 1)` iterates `meses` times when
`meses > 0` and zero times otherwise (`Int.toNat`); the function performs no
validation of `meses` and raises no error. -/
def calcular_juros_compostos (principal taxa_mensal : ℚ) (meses : ℤ)
    (aporte_mensal : ℚ) : GrowthResult :=
  let res := jurosCompostosAux taxa_mensal aporte_mensal 1 principal 0 meses.toNat
  { principal := principal, taxa_mensal := taxa_mensal, meses := meses,
    aporte_mensal := aporte_mensal,
    montante_final := round2 res.1, juros_totais := round2 res.2.1,
    evolucao := res.2.2 }

/-- One transaction record of the history consumed by
`calcular_score_interno` (`valor`, `tipo`, `categoria`). -/
structure Transacao where
  valor : ℚ
  tipo : String
  categoria : String
deriving DecidableEq

/-- The fixed discretionary-category list of `calcular_score_interno`. -/
def categorias_superfluas : List String :=
  ["delivery", "streaming", "jogos", "luxo", "lazer"]

/-- Python `str.lower()`, embedded as a character-by-character lowercase map
(the category strings involved are plain ASCII). -/
def pyLower (s : String) : String :=
  ⟨s.data.map Char.toLower⟩

/-- `total_receita`: sum of `valor` over transactions with `tipo == "receita"`. -/
def total_receita (h : List Transacao) : ℚ :=
  ((h.filter fun t => t.tipo = "receita").map fun t => t.valor).sum

/-- `total_despesa`: sum of `abs(valor)` over transactions with `tipo == "despesa"`. -/
def total_despesa (h : List Transacao) : ℚ :=
  ((h.filter fun t => t.tipo = "despesa").map fun t => |t.valor|).sum

/-- `gastos_superfluo`: sum of `abs(valor)` over transactions whose lowercased
category belongs to the discretionary list. -/
def gastos_superfluo (h : List Transacao) : ℚ :=
  ((h.filter fun t => pyLower t.categoria ∈ categorias_superfluas).map fun t => |t.valor|).sum

/-- The income/expense factor `score_relacao` (clamped to `[0, 100]`,
fixed `30` when there is no positive income). -/
def score_relacao (h : List Transacao) : ℚ :=
  if 0 < total_receita h then
    min 100 (max 0 (50 + (total_receita h - total_despesa h) / total_receita h * 50))
  else 30

/-- The spending-discipline factor `score_controle` (clamped to `[0, 100]`,
fixed `70` when there are no expenses). -/
def score_controle (h : List Transacao) : ℚ :=
  if 0 < total_despesa h then
    min 100 (max 0 (100 - gastos_superfluo h / total_despesa h * 200))
  else 70

/-- The weighted aggregate before truncation:
`(consistencia*0.4 + relacao*0.3 + evolucao*0.2 + controle*0.1) * 10`
with the constant factors `score_consistencia = 100` and
`score_evolucao = 60` of the source. -/
def score_final_raw (h : List Transacao) : ℚ :=
  (100 * (4 / 10) + score_relacao h * (3 / 10) + 60 * (2 / 10) +
    score_controle h * (1 / 10)) * 10

/-- Tier thresholds applied to the (pre-clamp) truncated score. -/
def nivel_do_score (s : ℤ) : String :=
  if 800 ≤ s then "Excelente"
  else if 650 ≤ s then "Bom"
  else if 500 ≤ s then "Regular"
  else if 350 ≤ s then "Atenção"
  else "Crítico"

/-- Score report of `calcular_score_interno` (the `dicas` tips list is
presentation-only and omitted). -/
structure ScoreReport where
  score : ℤ
  nivel : String
  consistencia : ℤ
  relacao_receita_despesa : ℤ
  evolucao_saldo : ℤ
  controle_gastos : ℤ
deriving DecidableEq

/-- `FinancialEngine.calcular_score_interno`: neutral default on an empty
history, otherwise the weighted aggregate truncated by Python `int()` and
clamped to `[0, 1000]`, with the tier computed from the pre-clamp value. -/
def calcular_score_interno (historico : List Transacao) : ScoreReport :=
  if historico = [] then
    { score := 500, nivel := "Iniciante", consistencia := 50,
      relacao_receita_despesa := 50, evolucao_saldo := 50, controle_gastos := 50 }
  else
    let score_final := pyInt (score_final_raw historico)
    { score := min 1000 (max 0 score_final),
      nivel := nivel_do_score score_final,
      consistencia := 100,
      relacao_receita_despesa := pyInt (score_relacao historico),
      evolucao_saldo := 60,
      controle_gastos := pyInt (score_controle historico) }

/-- Following the spec's words for the aggregate ("score =
round((consistency*0.4 + ratio*0.3 + trend*0.2 + discipline*0.1) * 10),
clamped to [0,1000]", with round-to-nearest): used only to compare the
spec's rounding against the source's truncation. -/
def score_spec_rounded (historico : List Transacao) : ℤ :=
  min 1000 (max 0 ⌊score_final_raw historico + 1 / 2⌋)

lemma payoffMonths_eq_of {d p i : ℚ} (hi : 0 < i) (hf : d * i < p) {k : ℕ}
    (hk : payoffPred d p i k) (hnot : ∀ m, m < k → ¬ payoffPred d p i m) :
    payoffMonths d p i = k := by
  refine le_antisymm (payoffMonths_le hk) ?_
  by_contra h
  push_neg at h
  exact hnot _ h (payoffMonths_pred hi hf)

/-- C1: for every valid amortization run of `calcular_data_quitacao`
(`divida > 0`, `pagamento > 0`, and when `taxa > 0` also
`pagamento > divida * taxa`), the returned projection satisfies
`total_amount_paid - total_interest_paid = divida` to within one cent. -/
theorem C1_conservation (d p i : ℚ) (h0 : 0 < d) (hp : 0 < p) (hf : 0 < i → d * i < p) :
    ∃ pr, calcular_data_quitacao d p i = Except.ok pr ∧
      |pr.total_amount_paid - pr.total_interest_paid - d| ≤ 1 / 100 := by
  rcases le_or_lt i 0 with hi | hi
  · refine ⟨_, calcular_zero_eq h0 hp hi, ?_⟩
    show |d - 0 - d| ≤ (1 : ℚ) / 100
    norm_num
  · refine ⟨_, calcular_pos_eq h0 hi (hf hi), ?_⟩
    show |round2 (d + accInterest p i d (payoffMonths d p i)) -
      round2 (accInterest p i d (payoffMonths d p i)) - d| ≤ (1 : ℚ) / 100
    set j := accInterest p i d (payoffMonths d p i) with hj
    have hjn : 0 ≤ j := accInterest_nonneg (le_of_lt h0) (le_of_lt hi) _
    have h1 := round2_err hjn
    have h2 := round2_err (show (0 : ℚ) ≤ d + j by linarith)
    rw [abs_le] at h1 h2 ⊢
    constructor
    · linarith [h1.1, h1.2, h2.1, h2.2]
    · linarith [h1.1, h1.2, h2.1, h2.2]

/-- Witness for C1 at the spec's first concrete scenario
`debt = 5000, payment = 500, rate = 0.05`. -/
theorem C1_conservation_witness :
    (0 : ℚ) < 5000 ∧ (0 : ℚ) < 500 ∧ ((0 : ℚ) < 1 / 20 → 5000 * (1 / 20 : ℚ) < 500) ∧
    ∃ pr, calcular_data_quitacao 5000 500 (1 / 20) = Except.ok pr ∧
      |pr.total_amount_paid - pr.total_interest_paid - 5000| ≤ 1 / 100 :=
  ⟨by norm_num, by norm_num, fun _ => by norm_num,
    C1_conservation 5000 500 (1 / 20) (by norm_num) (by norm_num) (fun _ => by norm_num)⟩

/-- C2: `calcular_data_quitacao` raises the infeasible-payment error exactly
when `divida > 0`, `pagamento > 0`, `taxa > 0` and `pagamento ≤ divida * taxa`
(the validations precede the month-by-month loop in the definition), and the
error carries the computed minimum payment `divida * taxa`. -/
theorem C2_infeasible_iff (d p i m : ℚ) :
    calcular_data_quitacao d p i = Except.error (EngineError.infeasiblePayment m) ↔
      0 < d ∧ 0 < p ∧ 0 < i ∧ p ≤ d * i ∧ m = d * i := by
  rw [calcular_data_quitacao]
  split_ifs with h1 h2 h3 h4
  · constructor
    · intro h; simp at h
    · rintro ⟨hd, -, -, -, -⟩; linarith
  · constructor
    · intro h; simp at h
    · rintro ⟨-, hpp, -, -, -⟩; linarith
  · constructor
    · intro h; simp at h
    · rintro ⟨-, -, hii, -, -⟩; linarith
  · simp only [Except.error.injEq, EngineError.infeasiblePayment.injEq]
    constructor
    · intro h
      exact ⟨not_le.mp h1, not_le.mp h2, not_le.mp h3, h4, h.symm⟩
    · rintro ⟨-, -, -, -, hm⟩
      exact hm.symm
  · constructor
    · intro h; simp at h
    · rintro ⟨-, -, -, hpm, -⟩
      exact h4 hpm

/-- C3: with `taxa ≤ 0` the solver returns
`months_to_payoff = ceil(divida / pagamento)`, zero total interest, and
`total_amount_paid = divida` exactly. -/
theorem C3_zero_rate (d p i : ℚ) (h0 : 0 < d) (hp : 0 < p) (hi : i ≤ 0) :
    calcular_data_quitacao d p i = Except.ok
      { debt_total := d, monthly_payment := p, interest_rate := i,
        months_to_payoff := ⌈d / p⌉₊, total_interest_paid := 0,
        total_amount_paid := d } :=
  calcular_zero_eq h0 hp hi

/-- Witness for C3 at the spec's concrete scenario
`debt = 5000, payment = 500, rate = 0`: ten months, zero interest, 5000 paid. -/
theorem C3_zero_rate_witness :
    (0 : ℚ) < 5000 ∧ (0 : ℚ) < 500 ∧ (0 : ℚ) ≤ 0 ∧
    calcular_data_quitacao 5000 500 0 = Except.ok
      { debt_total := 5000, monthly_payment := 500, interest_rate := 0,
        months_to_payoff := 10, total_interest_paid := 0, total_amount_paid := 5000 } := by
  refine ⟨by norm_num, by norm_num, le_rfl, ?_⟩
  rw [C3_zero_rate 5000 500 0 (by norm_num) (by norm_num) le_rfl]
  norm_num

/-- C4: with debt and rate fixed, a larger valid payment never yields a
larger `months_to_payoff`. -/
theorem C4_payment_mono (d p1 p2 i : ℚ) (h0 : 0 < d) (hp1 : 0 < p1) (h12 : p1 ≤ p2)
    (hf : 0 < i → d * i < p1) :
    ∃ pr1 pr2, calcular_data_quitacao d p1 i = Except.ok pr1 ∧
      calcular_data_quitacao d p2 i = Except.ok pr2 ∧
      pr2.months_to_payoff ≤ pr1.months_to_payoff := by
  have hp2 : 0 < p2 := lt_of_lt_of_le hp1 h12
  rcases le_or_lt i 0 with hi | hi
  · refine ⟨_, _, calcular_zero_eq h0 hp1 hi, calcular_zero_eq h0 hp2 hi, ?_⟩
    show ⌈d / p2⌉₊ ≤ ⌈d / p1⌉₊
    apply Nat.ceil_mono
    rw [div_le_div_iff₀ hp2 hp1]
    nlinarith
  · have hf1 := hf hi
    have hf2 : d * i < p2 := lt_of_lt_of_le hf1 h12
    refine ⟨_, _, calcular_pos_eq h0 hi hf1, calcular_pos_eq h0 hi hf2, ?_⟩
    show payoffMonths d p2 i ≤ payoffMonths d p1 i
    exact payoffMonths_le
      (payoffPred_mono_payment h12 (le_of_lt hi) (payoffMonths_pred hi hf1))

/-- Witness for C4 at `debt = 5000, rate = 0.05, payments 500 ≤ 600`. -/
theorem C4_payment_mono_witness :
    (0 : ℚ) < 5000 ∧ (0 : ℚ) < 500 ∧ (500 : ℚ) ≤ 600 ∧
    ((0 : ℚ) < 1 / 20 → 5000 * (1 / 20 : ℚ) < 500) ∧
    ∃ pr1 pr2, calcular_data_quitacao 5000 500 (1 / 20) = Except.ok pr1 ∧
      calcular_data_quitacao 5000 600 (1 / 20) = Except.ok pr2 ∧
      pr2.months_to_payoff ≤ pr1.months_to_payoff :=
  ⟨by norm_num, by norm_num, by norm_num, fun _ => by norm_num,
    C4_payment_mono 5000 500 600 (1 / 20) (by norm_num) (by norm_num) (by norm_num)
      (fun _ => by norm_num)⟩

/-- C5 counterexample: for the sub-cent expense `0.004` on
`debt = 100, payment = 200, rate = 0.05`, `calcular_impacto_gasto` reports
`custo_real = 0.00 < 0.004 = gasto_original` (the added interest rounds to
the same cent, and the expense itself is quantized away), refuting
`real_cost >= original_expense` as stated. -/
theorem C5_counterexample :
    calcular_impacto_gasto 100 200 (1 / 20) (1 / 250) = Except.ok
      { gasto_original := 1 / 250, custo_real := 0, juros_adicionais := 0,
        dias_adicionais := 0, meses_adicionais := 0 } ∧
    (0 : ℚ) < 1 / 250 := by
  have hm1 : payoffMonths 100 200 (1 / 20) = 1 := by
    apply payoffMonths_eq_of (by norm_num) (by norm_num)
    · norm_num [payoffPred]
    · intro m hm
      interval_cases m
      norm_num [payoffPred]
  have hm2 : payoffMonths (100 + 1 / 250) 200 (1 / 20) = 1 := by
    apply payoffMonths_eq_of (by norm_num) (by norm_num)
    · norm_num [payoffPred]
    · intro m hm
      interval_cases m
      norm_num [payoffPred]
  constructor
  · unfold calcular_impacto_gasto
    rw [calcular_pos_eq (by norm_num) (by norm_num) (by norm_num),
      calcular_pos_eq (show (0 : ℚ) < 100 + 1 / 250 by norm_num) (by norm_num) (by norm_num),
      hm1, hm2]
    norm_num [accInterest, cappedBalance, round2]
  · norm_num

/-- C5 (amended): with `rate > 0`, a nonnegative expense, and both runs
feasible, `calcular_impacto_gasto` returns `dias_adicionais ≥ 0` and
`custo_real ≥ round2 gasto_original`; in particular `custo_real ≥
gasto_original` whenever the expense is a whole number of cents. -/
theorem C5_impact_nonneg (d p i g : ℚ) (h0 : 0 < d) (hi : 0 < i) (hg : 0 ≤ g)
    (hf2 : (d + g) * i < p) :
    ∃ r, calcular_impacto_gasto d p i g = Except.ok r ∧
      0 ≤ r.dias_adicionais ∧ round2 r.gasto_original ≤ r.custo_real := by
  have hf1 : d * i < p := by nlinarith
  have h0' : 0 < d + g := by linarith
  unfold calcular_impacto_gasto
  rw [calcular_pos_eq h0 hi hf1, calcular_pos_eq h0' hi hf2]
  refine ⟨_, rfl, ?_, ?_⟩
  · show (0 : ℤ) ≤ ((payoffMonths (d + g) p i : ℤ) - (payoffMonths d p i : ℤ)) * 30
    have hmono : payoffMonths d p i ≤ payoffMonths (d + g) p i :=
      payoffMonths_le
        (payoffPred_mono_debt (by linarith) (le_of_lt hi) (payoffMonths_pred hi hf2))
    have : (payoffMonths d p i : ℤ) ≤ (payoffMonths (d + g) p i : ℤ) := by
      exact_mod_cast hmono
    have h30 : (0 : ℤ) ≤ 30 := by norm_num
    exact mul_nonneg (by linarith) h30
  · show round2 g ≤ round2 (g + (round2 (accInterest p i (d + g) (payoffMonths (d + g) p i)) -
      round2 (accInterest p i d (payoffMonths d p i))))
    have hmono : payoffMonths d p i ≤ payoffMonths (d + g) p i :=
      payoffMonths_le
        (payoffPred_mono_debt (by linarith) (le_of_lt hi) (payoffMonths_pred hi hf2))
    have hacc : accInterest p i d (payoffMonths d p i) ≤
        accInterest p i (d + g) (payoffMonths (d + g) p i) :=
      le_trans (accInterest_mono_debt (by linarith) (le_of_lt hi) _)
        (accInterest_mono_k (le_of_lt h0') (le_of_lt hi) hmono)
    have hja : 0 ≤ round2 (accInterest p i (d + g) (payoffMonths (d + g) p i)) -
        round2 (accInterest p i d (payoffMonths d p i)) := by
      have := round2_mono_nonneg (accInterest_nonneg (le_of_lt h0) (le_of_lt hi) _) hacc
      linarith
    exact round2_mono_nonneg hg (by linarith)

/-- Witness for the amended C5 at the spec's concrete scenario
`debt = 5000, payment = 500, rate = 0.05, expense = 60`. -/
theorem C5_impact_nonneg_witness :
    (0 : ℚ) < 5000 ∧ (0 : ℚ) < 1 / 20 ∧ (0 : ℚ) ≤ 60 ∧
    ((5000 : ℚ) + 60) * (1 / 20) < 500 ∧
    ∃ r, calcular_impacto_gasto 5000 500 (1 / 20) 60 = Except.ok r ∧
      0 ≤ r.dias_adicionais ∧ round2 r.gasto_original ≤ r.custo_real :=
  ⟨by norm_num, by norm_num, by norm_num, by norm_num,
    C5_impact_nonneg 5000 500 (1 / 20) 60 (by norm_num) (by norm_num) (by norm_num)
      (by norm_num)⟩

lemma simular_unchanged {d p i : ℚ} (c : Cenario) (h0 : 0 < d) (hp : 0 < p)
    (hf : 0 < i → d * i < p) (hc : aplicar_cenario c d p = (d, p)) :
    ∃ r, simular_cenario d p i c = Except.ok r ∧ r.nova_divida = d ∧
      r.economia_meses = 0 ∧ r.economia_juros = 0 := by
  obtain ⟨pr, hpr⟩ := calcular_isOk h0 hp hf
  unfold simular_cenario
  rw [hpr, hc]
  dsimp only
  rw [if_pos h0, hpr]
  refine ⟨_, rfl, rfl, sub_self _, ?_⟩
  show round2 (pr.total_interest_paid - pr.total_interest_paid) = 0
  rw [sub_self, round2_zero]

/-- C6: for a valid baseline and any of the three recognized scenario tags
with `valor = 0`, `simular_cenario` reports zero months saved and zero
interest saved. -/
theorem C6_zero_amount (d p i : ℚ) (c : Cenario) (h0 : 0 < d) (hp : 0 < p)
    (hf : 0 < i → d * i < p) (hv : c.valor = 0)
    (ht : c.tipo = "vender_algo" ∨ c.tipo = "aumentar_pagamento" ∨ c.tipo = "renda_extra") :
    ∃ r, simular_cenario d p i c = Except.ok r ∧
      r.economia_meses = 0 ∧ r.economia_juros = 0 := by
  have hc : aplicar_cenario c d p = (d, p) := by
    rcases ht with h | h | h
    · rw [aplicar_cenario, if_pos h, hv, sub_zero, max_eq_right (le_of_lt h0)]
    · rw [aplicar_cenario, if_neg (by rw [h]; decide), if_pos h, hv, add_zero]
    · rw [aplicar_cenario, if_neg (by rw [h]; decide), if_neg (by rw [h]; decide),
        if_pos h, hv, sub_zero, max_eq_right (le_of_lt h0)]
  obtain ⟨r, hr, -, hm, hj⟩ := simular_unchanged c h0 hp hf hc
  exact ⟨r, hr, hm, hj⟩

/-- Witness for C6: a zero-amount `vender_algo` scenario on
`debt = 1000, payment = 100, rate = 0.05`. -/
theorem C6_zero_amount_witness :
    (0 : ℚ) < 1000 ∧ (0 : ℚ) < 100 ∧ ((0 : ℚ) < 1 / 20 → 1000 * (1 / 20 : ℚ) < 100) ∧
    ∃ r, simular_cenario 1000 100 (1 / 20) ⟨"vender_algo", 0⟩ = Except.ok r ∧
      r.economia_meses = 0 ∧ r.economia_juros = 0 :=
  ⟨by norm_num, by norm_num, fun _ => by norm_num,
    C6_zero_amount 1000 100 (1 / 20) ⟨"vender_algo", 0⟩ (by norm_num) (by norm_num)
      (fun _ => by norm_num) rfl (Or.inl rfl)⟩

/-- C7 counterexample: `calcular_juros_compostos` does not reject a negative
month count; at `meses = -3` it returns a normal result with an empty
trajectory and `montante_final = principal`, raising no error. -/
theorem C7_counterexample :
    calcular_juros_compostos 1000 (1 / 20) (-3) 0 =
      { principal := 1000, taxa_mensal := 1 / 20, meses := -3, aporte_mensal := 0,
        montante_final := 1000, juros_totais := 0, evolucao := [] } := by
  norm_num [calcular_juros_compostos, jurosCompostosAux, round2]

/-- C7 (amended): `calcular_juros_compostos` performs no validation of the
month count; a negative `meses` behaves exactly like `meses = 0`, yielding an
empty trajectory, `montante_final = round2 principal`, zero total interest,
and no error. -/
theorem C7_negative_months (principal taxa aporte : ℚ) (meses : ℤ) (hm : meses < 0) :
    calcular_juros_compostos principal taxa meses aporte =
      { principal := principal, taxa_mensal := taxa, meses := meses,
        aporte_mensal := aporte, montante_final := round2 principal,
        juros_totais := 0, evolucao := [] } := by
  unfold calcular_juros_compostos
  rw [Int.toNat_of_nonpos (le_of_lt hm)]
  simp [jurosCompostosAux, round2_zero]

/-- Witness for the amended C7 at `meses = -7`. -/
theorem C7_negative_months_witness :
    (-7 : ℤ) < 0 ∧
    calcular_juros_compostos 500 (1 / 10) (-7) 25 =
      { principal := 500, taxa_mensal := 1 / 10, meses := -7, aporte_mensal := 25,
        montante_final := 500, juros_totais := 0, evolucao := [] } := by
  refine ⟨by norm_num, ?_⟩
  rw [C7_negative_months 500 (1 / 10) 25 (-7) (by norm_num)]
  norm_num [round2]

/-- C8 counterexample: an unrecognized scenario tag (`"investir"`) is not
rejected; `simular_cenario` returns an ordinary comparison with the inputs
left unchanged instead of an error. -/
theorem C8_counterexample :
    simular_cenario 1000 100 0 ⟨"investir", 50⟩ = Except.ok
      { cenario_tipo := "investir", cenario_valor := 50, nova_divida := 1000,
        atual_meses := 10, atual_juros := 0, simulado := some (10, 0),
        economia_meses := 0, economia_juros := 0 } := by
  norm_num +decide [simular_cenario, calcular_data_quitacao, aplicar_cenario, round2]

/-- C8 (amended): a scenario whose tag is none of the three recognized kinds
is not rejected: the debt and payment are left unchanged and, for a valid
baseline, `simular_cenario` returns an ordinary comparison with zero months
saved and zero interest saved. -/
theorem C8_unknown_tag (d p i : ℚ) (c : Cenario) (h0 : 0 < d) (hp : 0 < p)
    (hf : 0 < i → d * i < p) (h1 : c.tipo ≠ "vender_algo")
    (h2 : c.tipo ≠ "aumentar_pagamento") (h3 : c.tipo ≠ "renda_extra") :
    ∃ r, simular_cenario d p i c = Except.ok r ∧ r.nova_divida = d ∧
      r.economia_meses = 0 ∧ r.economia_juros = 0 := by
  apply simular_unchanged c h0 hp hf
  rw [aplicar_cenario, if_neg h1, if_neg h2, if_neg h3]

/-- Witness for the amended C8: the tag `"investir"` on a feasible baseline. -/
theorem C8_unknown_tag_witness :
    (0 : ℚ) < 1000 ∧ (0 : ℚ) < 100 ∧ ((0 : ℚ) < 1 / 20 → 1000 * (1 / 20 : ℚ) < 100) ∧
    ∃ r, simular_cenario 1000 100 (1 / 20) ⟨"investir", 50⟩ = Except.ok r ∧
      r.nova_divida = 1000 ∧ r.economia_meses = 0 ∧ r.economia_juros = 0 :=
  ⟨by norm_num, by norm_num, fun _ => by norm_num,
    C8_unknown_tag 1000 100 (1 / 20) ⟨"investir", 50⟩ (by norm_num) (by norm_num)
      (fun _ => by norm_num) (by decide) (by decide) (by decide)⟩

/-- C9 counterexample: on the history `[receita 1000, despesa 748]` the
weighted aggregate is `807.8`; the source truncates it with `int()` to `807`,
while the spec's round-to-nearest formula yields `808`. -/
theorem C9_counterexample :
    (calcular_score_interno
        [{ valor := 1000, tipo := "receita", categoria := "salario" },
         { valor := 748, tipo := "despesa", categoria := "mercado" }]).score = 807 ∧
    score_spec_rounded
        [{ valor := 1000, tipo := "receita", categoria := "salario" },
         { valor := 748, tipo := "despesa", categoria := "mercado" }] = 808 := by
  constructor
  · norm_num +decide [calcular_score_interno, score_final_raw, score_relacao,
      score_controle, total_receita, total_despesa, gastos_superfluo,
      categorias_superfluas, pyLower, pyInt]
  · norm_num +decide [score_spec_rounded, score_final_raw, score_relacao,
      score_controle, total_receita, total_despesa, gastos_superfluo,
      categorias_superfluas, pyLower]

/-- C9 (amended): for every non-empty history the returned score equals the
weighted aggregate truncated toward zero by Python `int()` (not rounded to
nearest) and clamped to `[0, 1000]`; in particular the score always lies in
`[0, 1000]`. -/
theorem C9_score_truncated (h : List Transacao) (hne : h ≠ []) :
    (calcular_score_interno h).score = min 1000 (max 0 (pyInt (score_final_raw h))) ∧
    0 ≤ (calcular_score_interno h).score ∧ (calcular_score_interno h).score ≤ 1000 := by
  rw [calcular_score_interno, if_neg hne]
  refine ⟨rfl, ?_, ?_⟩
  · show (0 : ℤ) ≤ min 1000 (max 0 (pyInt (score_final_raw h)))
    exact le_min (by norm_num) (le_max_left _ _)
  · show min 1000 (max 0 (pyInt (score_final_raw h))) ≤ 1000
    exact min_le_left _ _

/-- Witness for the amended C9 on a concrete two-transaction history. -/
theorem C9_score_truncated_witness :
    ([{ valor := 1000, tipo := "receita", categoria := "salario" },
      { valor := 748, tipo := "despesa", categoria := "mercado" }] :
        List Transacao) ≠ [] ∧
    (calcular_score_interno
        [{ valor := 1000, tipo := "receita", categoria := "salario" },
         { valor := 748, tipo := "despesa", categoria := "mercado" }]).score =
      min 1000 (max 0 (pyInt (score_final_raw
        [{ valor := 1000, tipo := "receita", categoria := "salario" },
         { valor := 748, tipo := "despesa", categoria := "mercado" }]))) :=
  ⟨by decide,
    (C9_score_truncated
      [{ valor := 1000, tipo := "receita", categoria := "salario" },
       { valor := 748, tipo := "despesa", categoria := "mercado" }] (by decide)).1⟩

/-- C10: for every non-empty history the score lies in `[520, 920]` (the
consistency factor is the constant `100` and the balance-trend factor the
constant `60`), so the tiers `"Atenção"` and `"Crítico"` are never produced
for a non-empty history. -/
theorem C10_score_range (h : List Transacao) (hne : h ≠ []) :
    520 ≤ (calcular_score_interno h).score ∧ (calcular_score_interno h).score ≤ 920 ∧
    (calcular_score_interno h).nivel ≠ "Atenção" ∧
    (calcular_score_interno h).nivel ≠ "Crítico" := by
  have hr : 0 ≤ score_relacao h ∧ score_relacao h ≤ 100 := by
    rw [score_relacao]
    split_ifs
    · exact ⟨le_min (by norm_num) (le_max_left _ _), min_le_left _ _⟩
    · norm_num
  have hc : 0 ≤ score_controle h ∧ score_controle h ≤ 100 := by
    rw [score_controle]
    split_ifs
    · exact ⟨le_min (by norm_num) (le_max_left _ _), min_le_left _ _⟩
    · norm_num
  have hraw : 520 ≤ score_final_raw h ∧ score_final_raw h ≤ 920 := by
    rw [score_final_raw]
    constructor
    · nlinarith [hr.1, hr.2, hc.1, hc.2]
    · nlinarith [hr.1, hr.2, hc.1, hc.2]
  have hpy : (520 : ℤ) ≤ pyInt (score_final_raw h) ∧ pyInt (score_final_raw h) ≤ 920 := by
    rw [pyInt, if_pos (by linarith [hraw.1])]
    constructor
    · exact Int.le_floor.mpr (by exact_mod_cast hraw.1)
    · have h1 : (⌊score_final_raw h⌋ : ℚ) ≤ score_final_raw h := Int.floor_le _
      have h2 : (⌊score_final_raw h⌋ : ℚ) ≤ 920 := le_trans h1 hraw.2
      exact_mod_cast h2
  have hclamp : min 1000 (max 0 (pyInt (score_final_raw h))) = pyInt (score_final_raw h) := by
    rw [max_eq_right (by linarith [hpy.1])]
    exact min_eq_right (by linarith [hpy.2])
  have hniv : nivel_do_score (pyInt (score_final_raw h)) = "Excelente" ∨
      nivel_do_score (pyInt (score_final_raw h)) = "Bom" ∨
      nivel_do_score (pyInt (score_final_raw h)) = "Regular" := by
    rw [nivel_do_score]
    split_ifs with a b cc dd
    · exact Or.inl rfl
    · exact Or.inr (Or.inl rfl)
    · exact Or.inr (Or.inr rfl)
    · exact absurd (show (500 : ℤ) ≤ pyInt (score_final_raw h) by omega) cc
    · exact absurd (show (500 : ℤ) ≤ pyInt (score_final_raw h) by omega) cc
  rw [calcular_score_interno, if_neg hne]
  refine ⟨?_, ?_, ?_, ?_⟩
  · show 520 ≤ min 1000 (max 0 (pyInt (score_final_raw h)))
    rw [hclamp]
    exact hpy.1
  · show min 1000 (max 0 (pyInt (score_final_raw h))) ≤ 920
    rw [hclamp]
    exact hpy.2
  · show nivel_do_score (pyInt (score_final_raw h)) ≠ "Atenção"
    rcases hniv with e | e | e <;> rw [e] <;> decide
  · show nivel_do_score (pyInt (score_final_raw h)) ≠ "Crítico"
    rcases hniv with e | e | e <;> rw [e] <;> decide

/-- Witness for C10 on a concrete two-transaction history. -/
theorem C10_score_range_witness :
    ([{ valor := 1000, tipo := "receita", categoria := "salario" },
      { valor := 748, tipo := "despesa", categoria := "mercado" }] :
        List Transacao) ≠ [] ∧
    520 ≤ (calcular_score_interno
      [{ valor := 1000, tipo := "receita", categoria := "salario" },
       { valor := 748, tipo := "despesa", categoria := "mercado" }]).score ∧
    (calcular_score_interno
      [{ valor := 1000, tipo := "receita", categoria := "salario" },
       { valor := 748, tipo := "despesa", categoria := "mercado" }]).score ≤ 920 :=
  ⟨by decide,
    (C10_score_range
      [{ valor := 1000, tipo := "receita", categoria := "salario" },
       { valor := 748, tipo := "despesa", categoria := "mercado" }] (by decide)).1,
    (C10_score_range
      [{ valor := 1000, tipo := "receita", categoria := "salario" },
       { valor := 748, tipo := "despesa", categoria := "mercado" }] (by decide)).2.1⟩

end Orbit
